import Mathlib

/- Verification of the question-resolution engine in
   utils/function_calling_system.py. Python strings are modelled through
   their character lists; the ASCII fragment of Python's case folding,
   whitespace and word-character classes is used (the inputs exercised by
   the properties below are ASCII or Korean, and Korean characters are
   untouched by case folding and are neither whitespace nor punctuation). -/

/-! ## String primitives -/

def toLowerList (s : String) : List Char := s.data.map Char.toLower

def isPrefixList : List Char → List Char → Bool
  | [], _ => true
  | _ :: _, [] => false
  | a :: as, b :: bs => a == b && isPrefixList as bs

/-- Model of Python's substring test: `containsSeq s pat` models Python's `pat in s` substring test. -/
def containsSeq : List Char → List Char → Bool
  | [], pat => pat.isEmpty
  | s@(_ :: t), pat => isPrefixList pat s || containsSeq t pat

def strContains (s pat : String) : Bool := containsSeq s.data pat.data

/-- Drop trailing whitespace, the right half of Python's `str.strip()`. -/
def dropTrailingWs : List Char → List Char
  | [] => []
  | c :: t =>
    let r := dropTrailingWs t
    if r.isEmpty && c.isWhitespace then [] else c :: r

/-- Python's `str.strip()` on a character list. -/
def stripChars (l : List Char) : List Char :=
  dropTrailingWs (l.dropWhile Char.isWhitespace)

def stripStr (s : String) : String := ⟨stripChars s.data⟩

/-- Python's `str.isdigit()` restricted to ASCII digits. -/
def isDigitStr (s : String) : Bool := !s.data.isEmpty && s.data.all Char.isDigit

/-! ## Relative date resolver (`parse_relative_dates`, lines 76-110)

The source reads `current_year` from the system clock; it is taken here as
the explicit anchor parameter. The Korean mapping table is kept in source
order, and, as in the source, each key is tested by *substring containment*
against the lowered, stripped input. -/

def korean_mappings (current_year : ℤ) : List (String × String) :=
  [("올해", toString current_year),
   ("작년", toString (current_year - 1)),
   ("재작년", toString (current_year - 2)),
   ("이번년", toString current_year),
   ("현재", toString current_year),
   ("지난해", toString (current_year - 1)),
   ("전년", toString (current_year - 1)),
   ("금년", toString current_year),
   ("작년도", toString (current_year - 1)),
   ("올해년도", toString current_year)]

def parse_relative_dates (current_year : ℤ) (period_text : String) : String :=
  let period_lower := stripStr ⟨toLowerList period_text⟩
  match (korean_mappings current_year).find? (fun p => strContains period_lower p.1) with
  | some p => p.2
  | none =>
    if isDigitStr period_text && period_text.length == 4 then period_text
    else toString current_year

/-- C1: the resolver maps "this year" (올해) to the anchor year and
"last year" (작년) to anchor-1, passes a 4-digit numeric input through
unchanged, and resolves an unrecognized token to the anchor year; but the
"year before last" token (재작년) resolves to anchor-1 ("2024"), not
anchor-2 ("2023"): the substring scan over the mapping table hits the
"작년" entry first because "작년" is a substring of "재작년", making the
"재작년" entry (whose own comment in the source says 2023) unreachable. -/
theorem c1_year_before_last_resolves_to_anchor_minus_one :
    parse_relative_dates 2025 "재작년" = "2024" ∧
    parse_relative_dates 2025 "재작년" ≠ "2023" ∧
    parse_relative_dates 2025 "올해" = "2025" ∧
    parse_relative_dates 2025 "작년" = "2024" ∧
    parse_relative_dates 2025 "2019" = "2019" ∧
    parse_relative_dates 2025 "nonsense" = "2025" := by
  refine ⟨rfl, ?_, rfl, rfl, rfl, rfl⟩
  decide

/-! ## Data model

One row of the `recalls` table. Text columns are `Option String` so that
SQL `NULL` is representable (`LIKE`/`=` against `NULL` is not satisfied).
Date columns hold `YYYY-MM-DD` strings; `strftime('%Y', d)` and
`strftime('%Y-%m', d)` are modelled as 4- and 7-character prefixes. -/

structure Row where
  company_name : Option String
  brand_name : Option String
  product_type : Option String
  recall_reason : Option String
  recall_reason_detail : Option String
  content : Option String
  url : Option String
  fda_publish_date : Option String
  company_announcement_date : Option String
deriving DecidableEq, Repr

/-- SQL `LOWER(col) LIKE LOWER('%term%')`: case-insensitive substring match,
false on `NULL`. -/
def likeContains (col : Option String) (term : String) : Bool :=
  match col with
  | none => false
  | some s => containsSeq (toLowerList s) (toLowerList term)

/-- SQL `LOWER(col) = LOWER(term)`, false on `NULL`. -/
def lowerEq (col : Option String) (term : String) : Bool :=
  match col with
  | none => false
  | some s => toLowerList s == toLowerList term

/-- The bilingual variant list `[term, english_term] if english_term != term
else [term]` built around `translate_to_english` (an external service,
passed in as `translate`). -/
def searchTerms (translate : String → String) (term : String) : List String :=
  let english_term := translate term
  if english_term != term then [term, english_term] else [term]

/-- The 5-column keyword disjunction used by rank/trend/compare. -/
def fiveColMatch (r : Row) (term : String) : Bool :=
  likeContains r.company_name term || likeContains r.brand_name term ||
  likeContains r.product_type term || likeContains r.recall_reason term ||
  likeContains r.recall_reason_detail term

/-- The 6-column disjunction (adds `content`) used by count and the
exclude filter. -/
def sixColMatch (r : Row) (term : String) : Bool :=
  fiveColMatch r term || likeContains r.content term

/-- An optional single-column `LIKE` filter expanded over both bilingual
variants; an absent parameter — `None` or the Python-falsy empty string —
imposes no condition. -/
def optColFilter (translate : String → String) (v : Option String)
    (col : Row → Option String) (r : Row) : Bool :=
  match v with
  | none => true
  | some t =>
    if t == "" then true
    else (searchTerms translate t).any (fun term => likeContains (col r) term)

/-- An optional single-column case-insensitive equality filter
(`recall_reason` in `count_recalls`). -/
def optEqFilter (translate : String → String) (v : Option String)
    (col : Row → Option String) (r : Row) : Bool :=
  match v with
  | none => true
  | some t =>
    if t == "" then true
    else (searchTerms translate t).any (fun term => lowerEq (col r) term)

/-- The optional 5-column keyword filter. -/
def optKeyword5 (translate : String → String) (kw : Option String) (r : Row) : Bool :=
  match kw with
  | none => true
  | some k =>
    if k == "" then true
    else (searchTerms translate k).any (fun term => fiveColMatch r term)

/-- The optional 6-column keyword filter (count_recalls). -/
def optKeyword6 (translate : String → String) (kw : Option String) (r : Row) : Bool :=
  match kw with
  | none => true
  | some k =>
    if k == "" then true
    else (searchTerms translate k).any (fun term => sixColMatch r term)

/-- Python truthiness of an optional string parameter. -/
def optTruthy (v : Option String) : Bool :=
  match v with
  | none => false
  | some s => s != ""

/-! ## Numeric helpers (Comparison engine, lines 967-1002)

`pythonRound` models Python 3's `round` (round-half-to-even) on an exact
rational; `roundTo1 x` is `round(x, 1)`. -/

def pythonRoundAux (n d : ℤ) : ℤ :=
  if 2 * (n - Int.fdiv n d * d) = d then
    (if 2 ∣ Int.fdiv n d then Int.fdiv n d else Int.fdiv n d + 1)
  else if 2 * (n - Int.fdiv n d * d) < d then Int.fdiv n d
  else Int.fdiv n d + 1

def pythonRound (x : ℚ) : ℤ := pythonRoundAux x.num (x.den : ℤ)

def roundTo1 (x : ℚ) : ℚ := (pythonRound (x * 10) : ℚ) / 10

/-- Line 970: `change = value2 - value1`. -/
def compareChange (value1 value2 : ℕ) : ℤ := (value2 : ℤ) - (value1 : ℤ)

/-- Line 971: `change_percent = (change / value1 * 100) if value1 > 0 else 0`, before rounding. -/
def rawChangePercent (value1 value2 : ℕ) : ℚ :=
  if 0 < value1 then ((compareChange value1 value2 : ℚ) / (value1 : ℚ)) * 100 else 0

/-- Trend classification (lines 973-987), applied to the unrounded
change percent. -/
def trendOf (change_percent : ℚ) : String :=
  if change_percent > 10 then "significant_increase"
  else if change_percent > 3 then "moderate_increase"
  else if change_percent < -10 then "significant_decrease"
  else if change_percent < -3 then "moderate_decrease"
  else "stable"

def trendDescriptionOf (change_percent : ℚ) : String :=
  if change_percent > 10 then "크게 증가"
  else if change_percent > 3 then "약간 증가"
  else if change_percent < -10 then "크게 감소"
  else if change_percent < -3 then "약간 감소"
  else "비슷한 수준"

/-! ## Period comparison (`compare_periods`, lines 806-1017) -/

def toLowerStr (s : String) : String := ⟨toLowerList s⟩

/-- Date-column selection (lines 829-835). -/
def dateColumnOf (date_field : String) : Row → Option String :=
  let dl := toLowerStr date_field
  if dl == "fda" || dl == "fda_publish" then Row.fda_publish_date
  else if dl == "company" || dl == "company_announcement" then Row.company_announcement_date
  else Row.fda_publish_date

/-- SQL `strftime('%Y', col) = period` (length 4) or `strftime('%Y-%m', col) =
period` (length 7): the leading `period.length` characters of the stored
date must equal the period. -/
def datePrefixEq (dateCol : Row → Option String) (period : String) (r : Row) : Bool :=
  match dateCol r with
  | none => false
  | some d => d.data.take period.length == period.data

/-- The rows of one period under the shared keyword/product/company/brand
filters (the WHERE clause built in lines 852-912). -/
def periodRows (db : List Row) (translate : String → String)
    (product_type company brand keyword : Option String)
    (dateCol : Row → Option String) (period : String) : List Row :=
  db.filter (fun r =>
    datePrefixEq dateCol period r &&
    optKeyword5 translate keyword r &&
    optColFilter translate product_type Row.product_type r &&
    optColFilter translate company Row.company_name r &&
    optColFilter translate brand Row.brand_name r)

/-- SQL `COUNT(DISTINCT col)` over non-NULL, non-empty values. -/
def distinctNonEmpty (vals : List (Option String)) : ℕ :=
  (((vals.filterMap id).filter (fun v => v != "")).dedup).length

/-- Metric selection for a period's total (lines 914-928). -/
def periodTotal (db : List Row) (translate : String → String) (metric : String)
    (product_type company brand keyword : Option String)
    (dateCol : Row → Option String) (period : String) : ℕ :=
  let rows := periodRows db translate product_type company brand keyword dateCol period
  if metric == "count" then rows.length
  else if metric == "companies" then distinctNonEmpty (rows.map Row.company_name)
  else if metric == "brands" then distinctNonEmpty (rows.map Row.brand_name)
  else if metric == "product_types" then distinctNonEmpty (rows.map Row.product_type)
  else rows.length

/-- Descending insertion by count, modelling `ORDER BY count DESC` (tie
order is unspecified in SQL and fixed arbitrarily here). -/
def insertDesc (x : String × ℕ) : List (String × ℕ) → List (String × ℕ)
  | [] => [x]
  | y :: ys => if y.2 < x.2 then x :: y :: ys else y :: insertDesc x ys

def sortByCountDesc (l : List (String × ℕ)) : List (String × ℕ) :=
  l.foldr insertDesc []

/-- SQL `GROUP BY col` with counts, ordered by descending count. -/
def groupCounts (vals : List String) : List (String × ℕ) :=
  sortByCountDesc (vals.dedup.map (fun v => (v, vals.count v)))

/-- Top-5 breakdown of a column over the period rows (lines 930-956). -/
def topGroup (col : Row → Option String) (rows : List Row) : List (String × ℕ) :=
  (groupCounts ((rows.filterMap col).filter (fun v => v != ""))).take 5

structure PeriodData where
  total : ℕ
  top_reasons : List (String × ℕ)
  top_details : List (String × ℕ)
deriving DecidableEq, Repr

/-- The `result_data` dictionary assembled by `get_period_data` for a
well-formed period (lines 850-958). -/
def periodDataOf (db : List Row) (translate : String → String) (metric : String)
    (include_reasons : Bool) (product_type company brand keyword : Option String)
    (dateCol : Row → Option String) (period : String) : PeriodData :=
  let rows := periodRows db translate product_type company brand keyword dateCol period
  { total := periodTotal db translate metric product_type company brand keyword dateCol period,
    top_reasons :=
      if include_reasons || strContains period "원인" || strContains period "사유" then
        topGroup Row.recall_reason rows
      else [],
    top_details := if include_reasons then topGroup Row.recall_reason_detail rows else [] }

/-- Model of `get_period_data` (lines 839-958): `none` models the `return None` for
a period string that is neither 4 nor 7 characters long. -/
def get_period_data (db : List Row) (translate : String → String) (metric : String)
    (include_reasons : Bool) (product_type company brand keyword : Option String)
    (dateCol : Row → Option String) (period : String) : Option PeriodData :=
  if period.length == 4 || period.length == 7 then
    some (periodDataOf db translate metric include_reasons product_type company brand
      keyword dateCol period)
  else none

structure ComparisonBlock where
  change : ℤ
  change_percent : ℚ
  trend : String
  trend_description : String
deriving DecidableEq, Repr

structure ComparePayload where
  period1_label : String
  period1_data : PeriodData
  period2_label : String
  period2_data : PeriodData
  comparison : ComparisonBlock
  actual_periods : List String
deriving DecidableEq, Repr

inductive CompareResult where
  | ok (payload : ComparePayload)
  | error (msg : String)
deriving DecidableEq, Repr

def malformedPeriodMsg : String :=
  "잘못된 기간 형식입니다. YYYY 또는 YYYY-MM 형식을 사용하세요."

/-- The success payload of `compare_periods` (lines 995-1014): the change,
rounded change percent and trend all derive from the two period totals. -/
def buildComparePayload (period1 period2 actual_period1 actual_period2 : String)
    (data1 data2 : PeriodData) : ComparePayload :=
  let cp := rawChangePercent data1.total data2.total
  { period1_label := period1 ++ "(" ++ actual_period1 ++ ")",
    period1_data := data1,
    period2_label := period2 ++ "(" ++ actual_period2 ++ ")",
    period2_data := data2,
    comparison := {
      change := compareChange data1.total data2.total,
      change_percent := roundTo1 cp,
      trend := trendOf cp,
      trend_description := trendDescriptionOf cp },
    actual_periods := [actual_period1, actual_period2] }

def compare_periods (db : List Row) (translate : String → String) (current_year : ℤ)
    (period1 period2 : String) (metric : String) (include_reasons : Bool)
    (product_type company brand keyword : Option String) (date_field : String) :
    CompareResult :=
  let actual_period1 := parse_relative_dates current_year period1
  let actual_period2 := parse_relative_dates current_year period2
  let dateCol := dateColumnOf date_field
  match get_period_data db translate metric include_reasons product_type company brand
          keyword dateCol actual_period1,
        get_period_data db translate metric include_reasons product_type company brand
          keyword dateCol actual_period2 with
  | some data1, some data2 =>
    .ok (buildComparePayload period1 period2 actual_period1 actual_period2 data1 data2)
  | _, _ => .error malformedPeriodMsg

/-- C2: whenever either period argument resolves to a string whose length
is neither 4 nor 7, `compare_periods` surfaces the explicit
malformed-period error object instead of a computed comparison. -/
theorem c2_malformed_period_is_operation_error
    (db : List Row) (translate : String → String) (current_year : ℤ)
    (period1 period2 metric : String) (include_reasons : Bool)
    (product_type company brand keyword : Option String) (date_field : String)
    (h : ((parse_relative_dates current_year period1).length ≠ 4 ∧
          (parse_relative_dates current_year period1).length ≠ 7) ∨
         ((parse_relative_dates current_year period2).length ≠ 4 ∧
          (parse_relative_dates current_year period2).length ≠ 7)) :
    compare_periods db translate current_year period1 period2 metric include_reasons
      product_type company brand keyword date_field =
    CompareResult.error malformedPeriodMsg := by
  rcases h with ⟨h4, h7⟩ | ⟨h4, h7⟩ <;>
    simp [compare_periods, get_period_data, h4, h7]

theorem c2_malformed_period_witness :
    (((parse_relative_dates 999 "nonsense").length ≠ 4 ∧
      (parse_relative_dates 999 "nonsense").length ≠ 7) ∨
     ((parse_relative_dates 999 "2024").length ≠ 4 ∧
      (parse_relative_dates 999 "2024").length ≠ 7)) ∧
    compare_periods [] (fun s => s) 999 "nonsense" "2024" "count" false
      none none none none "fda" = CompareResult.error malformedPeriodMsg :=
  ⟨Or.inl (by decide),
   c2_malformed_period_is_operation_error [] (fun s => s) 999 "nonsense" "2024" "count"
     false none none none none "fda" (Or.inl (by decide))⟩

/-- C3: the change is period2 total minus period1 total and the trend
thresholds on the (unrounded) change percent are greater than 10, greater
than 3, less than -10, less than -3, else stable; for period1 total 240 and
period2 total 125 the change is -115, the rounded change percent is -47.9,
and the trend is a significant decrease. -/
theorem c3_change_and_trend_classification :
    (∀ v1 v2 : ℕ, compareChange v1 v2 = (v2 : ℤ) - (v1 : ℤ)) ∧
    (∀ q : ℚ, 10 < q → trendOf q = "significant_increase") ∧
    (∀ q : ℚ, 3 < q → q ≤ 10 → trendOf q = "moderate_increase") ∧
    (∀ q : ℚ, q < -10 → trendOf q = "significant_decrease") ∧
    (∀ q : ℚ, -10 ≤ q → q < -3 → trendOf q = "moderate_decrease") ∧
    (∀ q : ℚ, -3 ≤ q → q ≤ 3 → trendOf q = "stable") ∧
    compareChange 240 125 = -115 ∧
    rawChangePercent 240 125 = -575/12 ∧
    roundTo1 (rawChangePercent 240 125) = -479/10 ∧
    trendOf (rawChangePercent 240 125) = "significant_decrease" := by
  have hraw : rawChangePercent 240 125 = -575/12 := by
    norm_num [rawChangePercent, compareChange]
  refine ⟨fun v1 v2 => rfl, ?_, ?_, ?_, ?_, ?_, by decide, hraw, ?_, ?_⟩
  · intro q h; simp [trendOf, h]
  · intro q h h10
    have : ¬ q > 10 := by linarith
    simp [trendOf, this, h]
  · intro q h
    have h1 : ¬ q > 10 := by linarith
    have h2 : ¬ q > 3 := by linarith
    simp [trendOf, h1, h2, h]
  · intro q hge hlt
    have h1 : ¬ q > 10 := by linarith
    have h2 : ¬ q > 3 := by linarith
    have h3 : ¬ q < -10 := by linarith
    simp [trendOf, h1, h2, h3, hlt]
  · intro q hge hle
    have h1 : ¬ q > 10 := by linarith
    have h2 : ¬ q > 3 := by linarith
    have h3 : ¬ q < -10 := by linarith
    have h4 : ¬ q < -3 := by linarith
    simp [trendOf, h1, h2, h3, h4]
  · rw [hraw]
    have hx : ((-575 : ℚ)/12 * 10) = (-2875)/6 := by norm_num
    have hnum : (((-2875 : ℚ))/6).num = -2875 := by norm_num
    have hden : ((((-2875 : ℚ))/6).den : ℤ) = 6 := by norm_num
    have haux : pythonRoundAux (-2875) 6 = -479 := by decide
    rw [roundTo1, pythonRound, hx, hnum, hden, haux]
    norm_num
  · rw [hraw]
    have h1 : ¬ ((-575 : ℚ)/12 > 10) := by norm_num
    have h2 : ¬ ((-575 : ℚ)/12 > 3) := by norm_num
    have h3 : ((-575 : ℚ)/12 < -10) := by norm_num
    simp [trendOf, h1, h2, h3]

/-- C4: when period1's total is 0 (and both periods resolve to well-formed
strings), `compare_periods` succeeds with change_percent = 0, whatever
period2's total is: the quotient is only taken when period1's total is
strictly positive. -/
theorem c4_zero_period1_total_gives_zero_percent
    (db : List Row) (translate : String → String) (current_year : ℤ)
    (period1 period2 metric : String) (include_reasons : Bool)
    (product_type company brand keyword : Option String) (date_field : String)
    (h1 : (parse_relative_dates current_year period1).length = 4 ∨
          (parse_relative_dates current_year period1).length = 7)
    (h2 : (parse_relative_dates current_year period2).length = 4 ∨
          (parse_relative_dates current_year period2).length = 7)
    (h0 : periodTotal db translate metric product_type company brand keyword
            (dateColumnOf date_field) (parse_relative_dates current_year period1) = 0) :
    ∃ payload,
      compare_periods db translate current_year period1 period2 metric include_reasons
        product_type company brand keyword date_field = CompareResult.ok payload ∧
      payload.comparison.change_percent = 0 ∧
      payload.comparison.change =
        (periodTotal db translate metric product_type company brand keyword
          (dateColumnOf date_field) (parse_relative_dates current_year period2) : ℤ) := by
  have hq : roundTo1 ((0 : ℚ)) = 0 := by
    have haux : pythonRoundAux 0 1 = 0 := by decide
    simp [roundTo1, pythonRound, Rat.num_ofNat, haux]
  have g1 : get_period_data db translate metric include_reasons product_type company brand
      keyword (dateColumnOf date_field) (parse_relative_dates current_year period1) =
      some (periodDataOf db translate metric include_reasons product_type company brand
        keyword (dateColumnOf date_field) (parse_relative_dates current_year period1)) := by
    rcases h1 with h | h <;> simp [get_period_data, h]
  have g2 : get_period_data db translate metric include_reasons product_type company brand
      keyword (dateColumnOf date_field) (parse_relative_dates current_year period2) =
      some (periodDataOf db translate metric include_reasons product_type company brand
        keyword (dateColumnOf date_field) (parse_relative_dates current_year period2)) := by
    rcases h2 with h | h <;> simp [get_period_data, h]
  refine ⟨buildComparePayload period1 period2
      (parse_relative_dates current_year period1) (parse_relative_dates current_year period2)
      (periodDataOf db translate metric include_reasons product_type company brand
        keyword (dateColumnOf date_field) (parse_relative_dates current_year period1))
      (periodDataOf db translate metric include_reasons product_type company brand
        keyword (dateColumnOf date_field) (parse_relative_dates current_year period2)),
    ?_, ?_, ?_⟩
  · simp [compare_periods, g1, g2]
  · have htot : (periodDataOf db translate metric include_reasons product_type company brand
        keyword (dateColumnOf date_field) (parse_relative_dates current_year period1)).total
        = 0 := h0
    simp [buildComparePayload, htot, rawChangePercent, hq]
  · have htot : (periodDataOf db translate metric include_reasons product_type company brand
        keyword (dateColumnOf date_field) (parse_relative_dates current_year period1)).total
        = 0 := h0
    simp [buildComparePayload, htot, compareChange, periodDataOf, h0]

theorem c4_zero_period1_total_witness :
    ((parse_relative_dates 2025 "2024").length = 4 ∨
     (parse_relative_dates 2025 "2024").length = 7) ∧
    (periodTotal [] (fun s => s) "count" none none none none
      (dateColumnOf "fda") (parse_relative_dates 2025 "2024") = 0) ∧
    ∃ payload,
      compare_periods [] (fun s => s) 2025 "2024" "2025" "count" false
        none none none none "fda" = CompareResult.ok payload ∧
      payload.comparison.change_percent = 0 ∧
      payload.comparison.change =
        (periodTotal [] (fun s => s) "count" none none none none
          (dateColumnOf "fda") (parse_relative_dates 2025 "2025") : ℤ) :=
  ⟨Or.inl (by decide), by decide,
   c4_zero_period1_total_gives_zero_percent [] (fun s => s) 2025 "2024" "2025" "count"
     false none none none none "fda" (Or.inl (by decide)) (Or.inl (by decide)) (by decide)⟩

theorem c3_change_and_trend_witness :
    trendOf 20 = "significant_increase" ∧ trendOf 5 = "moderate_increase" ∧
    trendOf (-20) = "significant_decrease" ∧ trendOf (-5) = "moderate_decrease" ∧
    trendOf 0 = "stable" :=
  ⟨c3_change_and_trend_classification.2.1 20 (by norm_num),
   c3_change_and_trend_classification.2.2.1 5 (by norm_num) (by norm_num),
   c3_change_and_trend_classification.2.2.2.1 (-20) (by norm_num),
   c3_change_and_trend_classification.2.2.2.2.1 (-5) (by norm_num) (by norm_num),
   c3_change_and_trend_classification.2.2.2.2.2.1 0 (by norm_num) (by norm_num)⟩

/-! ## Exclude-filter statistics (`calculate_filter_statistics`, lines 326-407) -/

/-- A row matches the include (or one exclude) term family when any
bilingual variant of any term matches any of the six text columns. -/
def rowMatchesAnyTerm (translate : String → String) (terms : List String) (r : Row) : Bool :=
  terms.any (fun t => (searchTerms translate t).any (fun v => sixColMatch r v))

/-- Model of `include_count` (lines 334-358): the whole table when no include terms
are given (`if include_terms:` is falsy for `None` and for `[]`). -/
def includeMatches (db : List Row) (translate : String → String)
    (include_terms : Option (List String)) : ℕ :=
  match include_terms with
  | none => db.length
  | some ts =>
    if ts.isEmpty then db.length
    else (db.filter (rowMatchesAnyTerm translate ts)).length

/-- Model of `exclude_count` (lines 360-387): 0 when no exclude terms are given. -/
def excludeMatches (db : List Row) (translate : String → String)
    (exclude_terms : List String) : ℕ :=
  if exclude_terms.isEmpty then 0
  else (db.filter (rowMatchesAnyTerm translate exclude_terms)).length

structure FilterStats where
  total_records : ℕ
  include_matches : ℕ
  exclude_matches : ℕ
  final_filtered : ℤ
  exclusion_rate : ℚ
deriving DecidableEq, Repr

/-- The statistics dictionary (lines 389-398):
`final_count = include_count - exclude_count if exclude_count > 0 else
include_count`, clamped with `max(0, final_count)`, and
`exclusion_rate = round(exclude_count / include_count * 100, 1)` when
`include_count > 0`, else 0. -/
def filterStats (total include_count exclude_count : ℕ) : FilterStats :=
  { total_records := total,
    include_matches := include_count,
    exclude_matches := exclude_count,
    final_filtered :=
      max 0 (if 0 < exclude_count then (include_count : ℤ) - (exclude_count : ℤ)
             else (include_count : ℤ)),
    exclusion_rate :=
      if 0 < include_count then roundTo1 ((exclude_count : ℚ) / (include_count : ℚ) * 100)
      else 0 }

def calculate_filter_statistics (db : List Row) (translate : String → String)
    (include_terms : Option (List String)) (exclude_terms : List String) : FilterStats :=
  filterStats db.length (includeMatches db translate include_terms)
    (excludeMatches db translate exclude_terms)

/-- C5: for every database and every include/exclude term combination the
statistics satisfy `final_filtered = max(0, include_matches -
exclude_matches)` (never negative) and `exclusion_rate` is the rounded
percentage exactly when `include_matches > 0`; the documented instance
total=1000, include=400, exclude=120 yields final_filtered=280 and
exclusion_rate=30.0. -/
theorem c5_filter_statistics :
    (∀ (db : List Row) (translate : String → String)
       (include_terms : Option (List String)) (exclude_terms : List String),
      (calculate_filter_statistics db translate include_terms exclude_terms).final_filtered =
        max 0 (((calculate_filter_statistics db translate include_terms exclude_terms).include_matches : ℤ) -
          ((calculate_filter_statistics db translate include_terms exclude_terms).exclude_matches : ℤ)) ∧
      (calculate_filter_statistics db translate include_terms exclude_terms).exclusion_rate =
        (if 0 < (calculate_filter_statistics db translate include_terms exclude_terms).include_matches then
          roundTo1 (((calculate_filter_statistics db translate include_terms exclude_terms).exclude_matches : ℚ) /
            ((calculate_filter_statistics db translate include_terms exclude_terms).include_matches : ℚ) * 100)
         else 0)) ∧
    filterStats 1000 400 120 =
      { total_records := 1000, include_matches := 400, exclude_matches := 120,
        final_filtered := 280, exclusion_rate := 30 } := by
  constructor
  · intro db translate include_terms exclude_terms
    refine ⟨?_, rfl⟩
    simp only [calculate_filter_statistics, filterStats]
    rcases Nat.eq_zero_or_pos (excludeMatches db translate exclude_terms) with h | h
    · simp [h]
    · simp [h]
  · have hq : ((120 : ℚ) / 400 * 100) = 30 := by norm_num
    have hnum : ((30 : ℚ) * 10).num = 300 := by norm_num
    have hden : (((30 : ℚ) * 10).den : ℤ) = 1 := by norm_num
    have haux : pythonRoundAux 300 1 = 300 := by decide
    simp only [filterStats, hq]
    norm_num [roundTo1, pythonRound, hnum, hden, haux]

/-! ## Cache key (`FunctionCallRecallSystem._get_cache_key`, lines 1349-1353)

`re.sub(r'[^\w\s]', '', question.lower().strip())` followed by
`re.sub(r'\s+', '_', ...)`. `keepChar` is the ASCII fragment of `[\w\s]`;
`collapseAux rep` replaces each maximal whitespace run by the single
character `rep` (the `inRun` flag records whether the previous character
belonged to a run). -/

def isWordChar (c : Char) : Bool := c.isAlphanum || c == '_'

def keepChar (c : Char) : Bool := isWordChar c || c.isWhitespace

def collapseAux (rep : Char) : Bool → List Char → List Char
  | _, [] => []
  | inRun, c :: t =>
    if c.isWhitespace then
      (if inRun then collapseAux rep inRun t else rep :: collapseAux rep true t)
    else c :: collapseAux rep false t

def get_cache_key (question : String) : String :=
  ⟨collapseAux '_' false ((stripChars (toLowerList question)).filter keepChar)⟩

/-- The normal form implied by the specification's reading of the cache
key — lowercase, strip punctuation, collapse whitespace runs, ignore
leading/trailing whitespace. Two questions are "equal up to letter case,
punctuation, and whitespace" exactly when their normal forms agree. This
definition follows the spec wording, for comparison with the source-derived
`get_cache_key`. -/
def specNormalForm (s : String) : List Char :=
  stripChars (collapseAux ' ' false ((toLowerList s).filter keepChar))

lemma ws_space : (' ' : Char).isWhitespace = true := by decide

lemma collapse_collapse (r : Char) (l : List Char) :
    ∀ b, collapseAux r b (collapseAux ' ' b l) = collapseAux r b l := by
  induction l with
  | nil => intro b; rfl
  | cons c t ih =>
    intro b
    cases hws : c.isWhitespace with
    | false => simp [collapseAux, hws, ih false]
    | true =>
      cases b with
      | false => simp [collapseAux, hws, ws_space, ih true]
      | true => simp [collapseAux, hws, ih true]

lemma collapse_flag_or (t : List Char) :
    collapseAux ' ' false t = collapseAux ' ' true t ∨
    collapseAux ' ' false t = ' ' :: collapseAux ' ' true t := by
  cases t with
  | nil => exact Or.inl rfl
  | cons c t =>
    cases hws : c.isWhitespace with
    | false => exact Or.inl (by simp [collapseAux, hws])
    | true => exact Or.inr (by simp [collapseAux, hws])

lemma filter_collapse (l : List Char) :
    ∀ b, collapseAux ' ' b ((collapseAux ' ' b l).filter keepChar) =
      collapseAux ' ' b (l.filter keepChar) := by
  induction l with
  | nil => intro b; rfl
  | cons c t ih =>
    intro b
    cases hws : c.isWhitespace with
    | true =>
      have hkeep : keepChar c = true := by simp [keepChar, hws]
      cases b with
      | true => simp [collapseAux, hws, hkeep, ih true]
      | false =>
        simp [collapseAux, hws, hkeep, ws_space, keepChar, isWordChar]
        exact ih true
    | false =>
      cases hkeep : keepChar c with
      | true => simp [collapseAux, hws, hkeep, ih false]
      | false =>
        -- the character is punctuation: it is removed by the filter
        simp [collapseAux, hws, hkeep]
        cases b with
        | false => exact ih false
        | true =>
          -- flags differ: relate `collapseAux ' ' false t` to the
          -- `true`-flag form, whose possible leading space is swallowed
          rcases collapse_flag_or t with h | h
          · rw [h]; exact ih true
          · rw [h]
            have hkeepSp : keepChar ' ' = true := by decide
            simp [List.filter, hkeepSp, collapseAux, ws_space]
            exact ih true

lemma dropWhile_collapse (l : List Char) :
    ∀ b, (collapseAux ' ' b l).dropWhile Char.isWhitespace =
      collapseAux ' ' true (l.dropWhile Char.isWhitespace) := by
  induction l with
  | nil => intro b; rfl
  | cons c t ih =>
    intro b
    cases hws : c.isWhitespace with
    | false => simp [collapseAux, hws, List.dropWhile]
    | true =>
      cases b with
      | true => simp [collapseAux, hws, List.dropWhile, ih true]
      | false => simp [collapseAux, hws, ws_space, List.dropWhile, ih true]

lemma collapse_true_nil (l : List Char) (h : collapseAux ' ' true l = []) :
    ∀ c ∈ l, c.isWhitespace = true := by
  induction l with
  | nil => intro c hc; cases hc
  | cons c t ih =>
    intro x hx
    cases hws : c.isWhitespace with
    | false => simp [collapseAux, hws] at h
    | true =>
      simp [collapseAux, hws] at h
      rcases List.mem_cons.mp hx with hx1 | hx1
      · exact hx1 ▸ hws
      · exact ih h x hx1

lemma dropTrailing_all_ws (l : List Char)
    (h : ∀ c ∈ dropTrailingWs l, c.isWhitespace = true) : dropTrailingWs l = [] := by
  induction l with
  | nil => rfl
  | cons c t ih =>
    by_cases hr : (dropTrailingWs t).isEmpty && c.isWhitespace
    · simp [dropTrailingWs, hr]
    · exfalso
      have hmem : c ∈ dropTrailingWs (c :: t) := by
        simp [dropTrailingWs, hr]
      have hc := h c hmem
      have htail : ∀ x ∈ dropTrailingWs t, x.isWhitespace = true := by
        intro x hx
        exact h x (by simp [dropTrailingWs, hr, hx])
      have := ih htail
      simp [this, hc] at hr

lemma dropTrailing_collapse (l : List Char) :
    ∀ b, dropTrailingWs (collapseAux ' ' b l) = collapseAux ' ' b (dropTrailingWs l) := by
  induction l with
  | nil => intro b; rfl
  | cons c t ih =>
    intro b
    cases hws : c.isWhitespace with
    | false =>
      by_cases hr : (dropTrailingWs t).isEmpty
      · simp [collapseAux, hws, dropTrailingWs, hr, ih false]
      · simp [collapseAux, hws, dropTrailingWs, hr, ih false]
    | true =>
      by_cases hr : (dropTrailingWs t).isEmpty
      · have hnil : dropTrailingWs t = [] := by
          cases hdt : dropTrailingWs t <;> simp_all
        cases b with
        | true =>
          simp [collapseAux, hws, ih true, hnil, dropTrailingWs]
        | false =>
          simp [collapseAux, hws, dropTrailingWs, ih true, hnil, ws_space]
      · have hne : dropTrailingWs t ≠ [] := by
          cases hdt : dropTrailingWs t <;> simp_all
        have hcne : collapseAux ' ' true (dropTrailingWs t) ≠ [] := by
          intro hz
          exact hne (dropTrailing_all_ws t (fun x hx => by
            have := collapse_true_nil (dropTrailingWs t) hz x hx
            exact this))
        cases b with
        | true =>
          simp [collapseAux, hws, ih true, dropTrailingWs, hne]
        | false =>
          simp [collapseAux, hws, ws_space, dropTrailingWs, ih true, hne, hcne]

lemma collapse_true_eq_false_of_head (r : Char) (x : List Char)
    (h : ∀ c, x.head? = some c → c.isWhitespace = false) :
    collapseAux r true x = collapseAux r false x := by
  cases x with
  | nil => rfl
  | cons c t =>
    have hc := h c rfl
    simp [collapseAux, hc]

lemma head_dropWhile_ws (l : List Char) :
    ∀ c, (l.dropWhile Char.isWhitespace).head? = some c → c.isWhitespace = false := by
  induction l with
  | nil => intro c hc; cases hc
  | cons a t ih =>
    intro c hc
    cases hws : a.isWhitespace with
    | true =>
      simp [List.dropWhile, hws] at hc
      exact ih c hc
    | false =>
      simp [List.dropWhile, hws] at hc
      exact hc ▸ hws

lemma head_dropTrailing (l : List Char) :
    ∀ c, (dropTrailingWs l).head? = some c → l.head? = some c := by
  cases l with
  | nil => intro c hc; cases hc
  | cons a t =>
    intro c hc
    by_cases hr : (dropTrailingWs t).isEmpty && a.isWhitespace
    · simp [dropTrailingWs, hr] at hc
    · simp [dropTrailingWs, hr] at hc
      simp [hc]

lemma filter_collapse_key (x : List Char) :
    collapseAux '_' false ((collapseAux ' ' false x).filter keepChar) =
    collapseAux '_' false (x.filter keepChar) := by
  calc collapseAux '_' false ((collapseAux ' ' false x).filter keepChar)
      = collapseAux '_' false (collapseAux ' ' false ((collapseAux ' ' false x).filter keepChar)) :=
        (collapse_collapse '_' ((collapseAux ' ' false x).filter keepChar) false).symm
    _ = collapseAux '_' false (collapseAux ' ' false (x.filter keepChar)) := by
        rw [filter_collapse x false]
    _ = collapseAux '_' false (x.filter keepChar) :=
        collapse_collapse '_' (x.filter keepChar) false

/-- Lowercasing followed by collapsing each whitespace run to one space:
two questions agreeing here are equal up to letter case and the lengths of
their whitespace runs. -/
def lowerCollapse (s : String) : List Char := collapseAux ' ' false (toLowerList s)

lemma stripChars_collapse (m : List Char) :
    stripChars (collapseAux ' ' false m) = collapseAux ' ' true (stripChars m) := by
  unfold stripChars
  rw [dropWhile_collapse m false, dropTrailing_collapse (m.dropWhile Char.isWhitespace) true]

lemma keyList_collapse (m : List Char) :
    collapseAux '_' false ((stripChars (collapseAux ' ' false m)).filter keepChar) =
    collapseAux '_' false ((stripChars m).filter keepChar) := by
  rw [stripChars_collapse]
  have hhead : ∀ c, (stripChars m).head? = some c → c.isWhitespace = false := by
    intro c hc
    exact head_dropWhile_ws m c (head_dropTrailing (m.dropWhile Char.isWhitespace) c hc)
  rw [collapse_true_eq_false_of_head ' ' (stripChars m) hhead]
  exact filter_collapse_key (stripChars m)

/-- C6 (amended): the cache key is invariant under letter case and under
the lengths of whitespace runs — questions with the same lowercased,
whitespace-collapsed form always get the same key; the original claim's
full punctuation insensitivity fails (see the counterexample: stripping
happens before punctuation removal, so punctuation adjacent to boundary
whitespace changes the key). -/
theorem c6_cache_key_case_whitespace_invariant (s t : String)
    (h : lowerCollapse s = lowerCollapse t) : get_cache_key s = get_cache_key t := by
  unfold get_cache_key
  apply congrArg (fun l => (⟨l⟩ : String))
  unfold lowerCollapse at h
  calc collapseAux '_' false ((stripChars (toLowerList s)).filter keepChar)
      = collapseAux '_' false ((stripChars (collapseAux ' ' false (toLowerList s))).filter keepChar) :=
        (keyList_collapse (toLowerList s)).symm
    _ = collapseAux '_' false ((stripChars (collapseAux ' ' false (toLowerList t))).filter keepChar) := by
        rw [h]
    _ = collapseAux '_' false ((stripChars (toLowerList t)).filter keepChar) :=
        keyList_collapse (toLowerList t)

theorem c6_cache_key_invariance_witness :
    lowerCollapse "How  Many Recalls" = lowerCollapse "how many recalls" ∧
    get_cache_key "How  Many Recalls" = get_cache_key "how many recalls" :=
  ⟨by decide,
   c6_cache_key_case_whitespace_invariant "How  Many Recalls" "how many recalls" (by decide)⟩

/-- C6 counterexample: "How many recalls?" and "How many recalls ?" are
equal up to letter case, punctuation and whitespace (their spec normal
forms agree), yet they receive different cache keys, because the source
strips the question before removing punctuation: removing a boundary
punctuation character can leave trailing whitespace that then becomes a
trailing underscore. The second call with the other spelling therefore
misses the cache and re-executes the pipeline. -/
theorem c6_counterexample_boundary_punctuation :
    specNormalForm "How many recalls?" = specNormalForm "How many recalls ?" ∧
    get_cache_key "How many recalls?" ≠ get_cache_key "How many recalls ?" ∧
    get_cache_key "How many recalls?" = "how_many_recalls" ∧
    get_cache_key "How many recalls ?" = "how_many_recalls_" := by
  exact ⟨by decide, by decide, rfl, rfl⟩

/-! ## Ranking (`rank_by_field`, lines 549-689) -/

/-- The alias table (lines 567-578), in source order. -/
def field_mapping : List (String × String) :=
  [("company", "company_name"),
   ("brand", "brand_name"),
   ("product_type", "product_type"),
   ("product", "product_type"),
   ("recall_reason", "recall_reason"),
   ("reason", "recall_reason"),
   ("recall_detail", "recall_reason_detail"),
   ("detail", "recall_reason_detail"),
   ("contaminant", "recall_reason_detail"),
   ("allergen", "recall_reason_detail")]

/-- Line 581: `field.lower().replace("_", "").replace(" ", "")`. -/
def normalizeFieldName (field : String) : List Char :=
  (toLowerList field).filter (fun c => !(c == '_' || c == ' '))

/-- Line 590: `key in normalized_field or normalized_field in key`. -/
def fuzzyFieldMatch (field : String) (key : String) : Bool :=
  containsSeq (normalizeFieldName field) key.data ||
  containsSeq key.data (normalizeFieldName field)

/-- Field resolution (lines 580-596): exact lowered-key lookup first, then
the substring-based fuzzy scan in table order, defaulting to
`recall_reason`. -/
def resolveDbField (field : String) : String :=
  match field_mapping.find? (fun p => p.1 == toLowerStr field) with
  | some p => p.2
  | none =>
    match field_mapping.find? (fun p => fuzzyFieldMatch field p.1) with
    | some p => p.2
    | none => "recall_reason"

/-- Access the grouped column by its database name (only the five mapped
names can occur). -/
def getColumn (name : String) (r : Row) : Option String :=
  if name == "company_name" then r.company_name
  else if name == "brand_name" then r.brand_name
  else if name == "product_type" then r.product_type
  else if name == "recall_reason" then r.recall_reason
  else r.recall_reason_detail

/-- Lines 604-606: `col IS NOT NULL AND col != '' AND col != 'N/A'`. -/
def validColumnValue (v : Option String) : Bool :=
  match v with
  | none => false
  | some s => s != "" && s != "N/A"

/-- The year filter shared by count/rank (lines 511-518 and 656-662): only
a 4- or 7-character year adds a date condition; any other length (and the
falsy empty string) imposes none. -/
def yearCond (year : Option String) (r : Row) : Bool :=
  match year with
  | none => true
  | some y =>
    if y.length == 4 then datePrefixEq Row.fda_publish_date y r
    else if y.length == 7 then datePrefixEq Row.fda_publish_date y r
    else true

/-- The WHERE clause of `rank_by_field` (lines 600-662): the grouped
column must be valid, and each extra filter is skipped when it targets the
grouped column itself. -/
def rankRowPred (db_field : String) (translate : String → String)
    (company brand product_type year keyword : Option String) (r : Row) : Bool :=
  validColumnValue (getColumn db_field r) &&
  optKeyword5 translate keyword r &&
  (if db_field == "company_name" then true
   else optColFilter translate company Row.company_name r) &&
  (if db_field == "brand_name" then true
   else optColFilter translate brand Row.brand_name r) &&
  (if db_field == "product_type" then true
   else optColFilter translate product_type Row.product_type r) &&
  yearCond year r

structure RankFilters where
  company : Option String
  brand : Option String
  product_type : Option String
  year : Option String
  keyword : Option String
deriving DecidableEq, Repr

structure RankResult where
  ranking : List (String × ℕ)
  field : String
  db_field : String
  total_items : ℕ
  filters : RankFilters
deriving DecidableEq, Repr

def rank_by_field (db : List Row) (translate : String → String) (field : String)
    (limit : ℕ) (company product_type brand year keyword : Option String) : RankResult :=
  let db_field := resolveDbField field
  let rows := db.filter (rankRowPred db_field translate company brand product_type year keyword)
  let ranking := (groupCounts (rows.filterMap (getColumn db_field))).take limit
  { ranking := ranking,
    field := field,
    db_field := db_field,
    total_items := ranking.length,
    filters := { company := company, brand := brand, product_type := product_type,
                 year := year, keyword := keyword } }

/-- C7: `rank_by_field` groups by the alias-mapped column — company,
brand, product, reason, detail, contaminant and allergen resolve to their
documented columns (with substring-based fuzzy matching on the normalized
field name, e.g. "company name"), the operation's reported grouping column
is exactly the resolved one, and a field matching no alias (neither
exactly nor fuzzily) falls back to `recall_reason`. -/
theorem c7_rank_field_aliasing :
    resolveDbField "company" = "company_name" ∧
    resolveDbField "brand" = "brand_name" ∧
    resolveDbField "product" = "product_type" ∧
    resolveDbField "reason" = "recall_reason" ∧
    resolveDbField "detail" = "recall_reason_detail" ∧
    resolveDbField "contaminant" = "recall_reason_detail" ∧
    resolveDbField "allergen" = "recall_reason_detail" ∧
    resolveDbField "company name" = "company_name" ∧
    (∀ (db : List Row) (translate : String → String) (field : String) (limit : ℕ)
       (company product_type brand year keyword : Option String),
      (rank_by_field db translate field limit company product_type brand year
        keyword).db_field = resolveDbField field) ∧
    (∀ field : String,
      field_mapping.find? (fun p => p.1 == toLowerStr field) = none →
      field_mapping.find? (fun p => fuzzyFieldMatch field p.1) = none →
      resolveDbField field = "recall_reason") := by
  refine ⟨rfl, rfl, rfl, rfl, rfl, rfl, rfl, rfl, fun _ _ _ _ _ _ _ _ _ => rfl, ?_⟩
  intro field h1 h2
  simp [resolveDbField, h1, h2]

theorem c7_rank_field_fallback_witness :
    field_mapping.find? (fun p => p.1 == toLowerStr "zzz") = none ∧
    field_mapping.find? (fun p => fuzzyFieldMatch "zzz" p.1) = none ∧
    resolveDbField "zzz" = "recall_reason" :=
  ⟨by decide, by decide,
   c7_rank_field_aliasing.2.2.2.2.2.2.2.2.2 "zzz" (by decide) (by decide)⟩

/-! ## Counting (`count_recalls`, lines 419-547) -/

/-- The `_DETAIL_TERMS` vocabulary (lines 142-146). -/
def detailTerms : List String :=
  ["salmonella", "리스테리아", "listeria", "listeria monocytogenes",
   "e. coli", "ecoli", "escherichia", "norovirus", "노로바이러스",
   "campylobacter", "shigella", "clostridium", "botulinum"]

/-- Model of `_looks_like_detail` (lines 148-153): a value looks like a
pathogen/detail when any known term occurs in its lowered form or in the
lowered translation. -/
def looks_like_detail (translate : String → String) (value : Option String) : Bool :=
  match value with
  | none => false
  | some v =>
    if v == "" then false
    else
      detailTerms.any (fun k =>
        strContains (toLowerStr v) k || strContains (toLowerStr (translate v)) k)

/-- The conjunctive WHERE clause of `count_recalls` (lines 440-518). -/
def countRowPred (translate : String → String)
    (company brand product_type recall_reason recall_reason_detail year keyword :
      Option String) (r : Row) : Bool :=
  optKeyword6 translate keyword r &&
  optColFilter translate company Row.company_name r &&
  optColFilter translate brand Row.brand_name r &&
  optColFilter translate product_type Row.product_type r &&
  optEqFilter translate recall_reason Row.recall_reason r &&
  optColFilter translate recall_reason_detail Row.recall_reason_detail r &&
  yearCond year r

structure CountFilters where
  company : Option String
  brand : Option String
  product_type : Option String
  recall_reason : Option String
  recall_reason_detail : Option String
  year : Option String
  keyword : Option String
deriving DecidableEq, Repr

structure CountResult where
  count : ℕ
  filters : CountFilters
  search_fields : String
  query_type : String
deriving DecidableEq, Repr

def count_recalls (db : List Row) (translate : String → String)
    (company product_type brand recall_reason recall_reason_detail year keyword :
      Option String) : CountResult :=
  -- auto-reclassification of a detail-looking reason (lines 436-438)
  let reclass := optTruthy recall_reason && !optTruthy recall_reason_detail &&
    looks_like_detail translate recall_reason
  let recall_reason2 := if reclass then none else recall_reason
  let recall_reason_detail2 := if reclass then recall_reason else recall_reason_detail
  { count := (db.filter (countRowPred translate company brand product_type
      recall_reason2 recall_reason_detail2 year keyword)).length,
    filters := { company := company, brand := brand, product_type := product_type,
                 recall_reason := recall_reason2,
                 recall_reason_detail := recall_reason_detail2,
                 year := year, keyword := keyword },
    search_fields := if optTruthy keyword then "multiple" else "specific",
    query_type := "unified_count" }

/-- C10: a year whose length is neither 4 nor 7 adds no date condition and
produces no error in `count_recalls` and `rank_by_field`: the count and
the ranking are the ones computed with no year filter at all, while the
result still echoes the year in its filters object. -/
theorem c10_malformed_year_ignored_but_echoed
    (db : List Row) (translate : String → String)
    (company product_type brand recall_reason recall_reason_detail keyword : Option String)
    (field : String) (limit : ℕ) (year : String)
    (h4 : year.length ≠ 4) (h7 : year.length ≠ 7) :
    (count_recalls db translate company product_type brand recall_reason
        recall_reason_detail (some year) keyword).count =
      (count_recalls db translate company product_type brand recall_reason
        recall_reason_detail none keyword).count ∧
    (count_recalls db translate company product_type brand recall_reason
        recall_reason_detail (some year) keyword).filters.year = some year ∧
    (rank_by_field db translate field limit company product_type brand
        (some year) keyword).ranking =
      (rank_by_field db translate field limit company product_type brand
        none keyword).ranking ∧
    (rank_by_field db translate field limit company product_type brand
        (some year) keyword).filters.year = some year := by
  have h4b : (year.length == 4) = false := by
    simp [h4]
  have h7b : (year.length == 7) = false := by
    simp [h7]
  have hy : ∀ r : Row, yearCond (some year) r = yearCond none r := by
    intro r
    simp [yearCond, h4b, h7b]
  refine ⟨?_, rfl, ?_, rfl⟩
  · have hp : ∀ rr rrd : Option String,
        (fun r => countRowPred translate company brand product_type rr rrd
          (some year) keyword r) =
        (fun r => countRowPred translate company brand product_type rr rrd
          none keyword r) := by
      intro rr rrd
      funext r
      simp [countRowPred, hy r]
    simp only [count_recalls, hp]
  · have hp : ∀ dbf : String,
        (fun r => rankRowPred dbf translate company brand product_type
          (some year) keyword r) =
        (fun r => rankRowPred dbf translate company brand product_type
          none keyword r) := by
      intro dbf
      funext r
      simp [rankRowPred, hy r]
    simp only [rank_by_field, hp]

theorem c10_malformed_year_witness :
    ("late 2024".length ≠ 4 ∧ "late 2024".length ≠ 7) ∧
    (count_recalls [] (fun s => s) none none none none none
        (some "late 2024") none).count =
      (count_recalls [] (fun s => s) none none none none none none none).count ∧
    (count_recalls [] (fun s => s) none none none none none
        (some "late 2024") none).filters.year = some "late 2024" ∧
    (rank_by_field [] (fun s => s) "company" 5 none none none
        (some "late 2024") none).ranking =
      (rank_by_field [] (fun s => s) "company" 5 none none none none none).ranking ∧
    (rank_by_field [] (fun s => s) "company" 5 none none none
        (some "late 2024") none).filters.year = some "late 2024" :=
  ⟨⟨by decide, by decide⟩,
   c10_malformed_year_ignored_but_echoed [] (fun s => s) none none none none none
     none "company" 5 "late 2024" (by decide) (by decide)⟩

/-! ## Semantic search merger (`search_recall_cases`, lines 1020-1149)

The vector store is the external collaborator `store query k`, returning
the ranked documents for one query (a per-query lookup failure, which the
source catches and skips, is the same as that query returning no
documents). -/

structure Doc where
  url : String
  company_name : String
  brand_name : String
  product_type : String
  recall_reason : String
  recall_reason_detail : String
  fda_publish_date : String
  company_announcement_date : String
  page_content : String
deriving DecidableEq, Repr

structure SearchCase where
  company : String
  brand : String
  product_type : String
  recall_reason : String
  recall_detail : String
  fda_date : String
  company_date : String
  url : String
  content_preview : String
deriving DecidableEq, Repr

/-- Case formatting (lines 1113-1133): the preview truncates content over
300 characters. -/
def docToCase (d : Doc) : SearchCase :=
  { company := d.company_name, brand := d.brand_name, product_type := d.product_type,
    recall_reason := d.recall_reason, recall_detail := d.recall_reason_detail,
    fda_date := d.fda_publish_date, company_date := d.company_announcement_date,
    url := d.url,
    content_preview :=
      if 300 < d.page_content.length then ⟨d.page_content.data.take 300⟩ ++ "..."
      else d.page_content }

/-- The `enhanced_translations` table (lines 1035-1063), in source order. -/
def enhanced_translations : List (String × List String) :=
  [("살모넬라", ["Salmonella", "salmonella contamination"]),
   ("리스테리아", ["Listeria", "Listeria monocytogenes"]),
   ("대장균", ["E.coli", "E. coli", "Escherichia coli"]),
   ("클로스트리듐", ["Clostridium", "clostridium botulinum"]),
   ("우유", ["milk", "dairy", "undeclared milk"]),
   ("계란", ["egg", "eggs", "undeclared egg"]),
   ("견과류", ["tree nuts", "nuts", "undeclared nuts"]),
   ("땅콩", ["peanut", "peanuts", "undeclared peanut"]),
   ("콩", ["soy", "soybean", "undeclared soy"]),
   ("밀", ["wheat", "gluten", "undeclared wheat"]),
   ("복합 가공식품", ["processed foods", "processed products"]),
   ("소스 복합식품", ["sauce processed food", "sauce products"]),
   ("과자", ["snacks", "crackers", "cookies"]),
   ("유제품", ["dairy products", "milk products"]),
   ("해산물", ["seafood", "fish products"]),
   ("육류", ["meat products", "meat"]),
   ("알레르겐", ["allergen", "undeclared allergen"]),
   ("오염", ["contamination", "contaminated"]),
   ("리콜", ["recall", "voluntary recall"]),
   ("사례", ["cases", "incidents"])]

/-- Python's `list(dict.fromkeys(...))`: deduplicate keeping first occurrences. -/
def dedupFirstAux (seen : List String) : List String → List String
  | [] => []
  | x :: xs =>
    if seen.contains x then dedupFirstAux seen xs
    else x :: dedupFirstAux (x :: seen) xs

/-- Query expansion (lines 1030-1076): the original query, the mapped
vocabulary expansions, the full translation when new, then stripped,
emptied-out and de-duplicated keeping first occurrences. -/
def searchQueriesOf (translate : String → String) (query : String) : List String :=
  let withExp := query :: enhanced_translations.foldl
    (fun acc p => if strContains query p.1 then acc ++ p.2 else acc) []
  let english_query := translate query
  let withTr :=
    if english_query != query && !withExp.contains english_query then
      withExp ++ [english_query]
    else withExp
  dedupFirstAux [] ((withTr.map stripStr).filter (fun q => q != ""))

/-- The inner loop over one query's documents (lines 1095-1099): keep a
document when its url is nonempty and unseen. -/
def addBatch : List String → List Doc → List String × List Doc
  | seen, [] => (seen, [])
  | seen, d :: ds =>
    if d.url != "" && !seen.contains d.url then
      let p := addBatch (d.url :: seen) ds
      (p.1, d :: p.2)
    else addBatch seen ds

/-- The outer loop over the expanded queries (lines 1084-1103), threading
the seen-url set. -/
def collectDocs : List String → List (List Doc) → List Doc
  | _, [] => []
  | seen, b :: bs =>
    let p := addBatch seen b
    p.2 ++ collectDocs p.1 bs

/-- The `evaluate_search_quality` keyword list (lines 1164-1167). -/
def searchKeywords : List String :=
  ["살모넬라", "salmonella", "리스테리아", "listeria",
   "대장균", "e.coli", "알레르겐", "allergen",
   "우유", "milk", "계란", "egg", "견과류", "nuts"]

def roundTo2 (x : ℚ) : ℚ := (pythonRound (x * 100) : ℚ) / 100

structure SearchQuality where
  score : ℕ
  assessment : String
  keyword_matches : ℕ
  total_results : ℕ
  match_ratio : ℚ
deriving DecidableEq, Repr

def caseText (c : SearchCase) : String :=
  toLowerStr (c.recall_reason ++ " " ++ c.recall_detail ++ " " ++ c.content_preview)

def caseMatchesKeyword (query_lower : String) (c : SearchCase) : Bool :=
  searchKeywords.any (fun k => strContains query_lower k && strContains (caseText c) k)

/-- Model of `evaluate_search_quality` (lines 1151-1204). `int(match_ratio * 100 +
total * 10)` truncates a non-negative value, which is natural division
here. -/
def evaluate_search_quality (query : String) (cases : List SearchCase) : SearchQuality :=
  if cases.isEmpty then
    { score := 0, assessment := "no_results", keyword_matches := 0,
      total_results := 0, match_ratio := 0 }
  else
    let total := cases.length
    let kwMatches := (cases.filter (caseMatchesKeyword (toLowerStr query))).length
    let score := min 100 (kwMatches * 100 / total + total * 10)
    { score := score,
      assessment :=
        if 80 ≤ score then "excellent"
        else if 60 ≤ score then "good"
        else if 40 ≤ score then "fair"
        else "poor",
      keyword_matches := kwMatches,
      total_results := total,
      match_ratio := roundTo2 ((kwMatches : ℚ) / (total : ℚ)) }

structure SearchResult where
  cases : List SearchCase
  total_found : ℕ
  original_query : String
  search_queries : List String
  search_method : String
  search_quality : SearchQuality
deriving DecidableEq, Repr

def search_recall_cases (store : String → ℕ → List Doc) (translate : String → String)
    (query : String) (limit : ℕ) : SearchResult :=
  let qs := searchQueriesOf translate query
  let batches := qs.mapIdx (fun i q => store q (if i == 0 then limit * 3 else limit * 2))
  let cases := ((collectDocs [] batches).take limit).map docToCase
  { cases := cases,
    total_found := cases.length,
    original_query := query,
    search_queries := qs,
    search_method := "enhanced_multilingual_search",
    search_quality := evaluate_search_quality query cases }

lemma addBatch_spec (b : List Doc) : ∀ seen : List String,
    List.Sublist (addBatch seen b).2 b ∧
    ((addBatch seen b).2.map Doc.url).Nodup ∧
    (∀ d ∈ (addBatch seen b).2, d.url ∉ seen ∧ d.url ≠ "") ∧
    (∀ u : String, u ∈ (addBatch seen b).1 ↔ u ∈ seen ∨ u ∈ (addBatch seen b).2.map Doc.url) := by
  induction b with
  | nil =>
    intro seen
    exact ⟨List.Sublist.refl [], List.nodup_nil, fun d hd => absurd hd (List.not_mem_nil d),
      fun u => by simp [addBatch]⟩
  | cons d ds ih =>
    intro seen
    cases hc : d.url != "" && !seen.contains d.url with
    | true =>
      have hurl : d.url ≠ "" ∧ d.url ∉ seen := by
        simp only [Bool.and_eq_true, bne_iff_ne, Bool.not_eq_true'] at hc
        exact ⟨hc.1, by simpa using hc.2⟩
      obtain ⟨ihsub, ihnd, ihout, ihseen⟩ := ih (d.url :: seen)
      have heq : addBatch seen (d :: ds) =
          ((addBatch (d.url :: seen) ds).1, d :: (addBatch (d.url :: seen) ds).2) := by
        simp only [addBatch, hc, if_true]
      rw [heq]
      refine ⟨List.Sublist.cons₂ d ihsub, ?_, ?_, ?_⟩
      · simp only [List.map_cons, List.nodup_cons]
        refine ⟨?_, ihnd⟩
        intro hmem
        obtain ⟨d2, hd2, hd2url⟩ := List.mem_map.mp hmem
        exact (ihout d2 hd2).1 (by simp [hd2url])
      · intro d2 hd2
        rcases List.mem_cons.mp hd2 with h | h
        · exact h ▸ ⟨hurl.2, hurl.1⟩
        · exact ⟨fun hs => (ihout d2 h).1 (List.mem_cons_of_mem _ hs), (ihout d2 h).2⟩
      · intro u
        rw [ihseen u]
        simp only [List.mem_cons, List.map_cons]
        tauto
    | false =>
      have hneg : ¬((d.url != "" && !seen.contains d.url) = true) := by
        rw [hc]
        simp
      have heq : addBatch seen (d :: ds) = addBatch seen ds := by
        simp only [addBatch]
        rw [if_neg hneg]
      obtain ⟨ihsub, ihnd, ihout, ihseen⟩ := ih seen
      rw [heq]
      exact ⟨ihsub.cons d, ihnd, ihout, ihseen⟩

lemma collectDocs_spec (bs : List (List Doc)) : ∀ seen : List String,
    List.Sublist (collectDocs seen bs) bs.flatten ∧
    ((collectDocs seen bs).map Doc.url).Nodup ∧
    (∀ d ∈ collectDocs seen bs, d.url ∉ seen ∧ d.url ≠ "") := by
  induction bs with
  | nil =>
    intro seen
    exact ⟨by simp [collectDocs], by simp [collectDocs], fun d hd => by simp [collectDocs] at hd⟩
  | cons b bs ih =>
    intro seen
    obtain ⟨asub, and2, aout, aseen⟩ := addBatch_spec b seen
    obtain ⟨isub, ind2, iout⟩ := ih (addBatch seen b).1
    have heq : collectDocs seen (b :: bs) = (addBatch seen b).2 ++ collectDocs (addBatch seen b).1 bs := by
      simp [collectDocs]
    rw [heq]
    refine ⟨?_, ?_, ?_⟩
    · simpa using List.Sublist.append asub isub
    · rw [List.map_append]
      rw [List.nodup_append]
      refine ⟨and2, ind2, ?_⟩
      intro u hu1 hu2
      obtain ⟨d2, hd2, hd2url⟩ := List.mem_map.mp hu2
      have : d2.url ∉ (addBatch seen b).1 := (iout d2 hd2).1
      exact this (by rw [aseen]; exact Or.inr (hd2url ▸ hu1))
    · intro d2 hd2
      rcases List.mem_append.mp hd2 with h | h
      · exact aout d2 h
      · refine ⟨?_, (iout d2 h).2⟩
        intro hs
        exact (iout d2 h).1 (by rw [aseen]; exact Or.inl hs)

/-- C8: for every store behaviour, query and limit, the merged case list
contains no two cases with the same source url (every url is nonempty and
urls are pairwise distinct), is truncated to the requested limit, and is a
subsequence of the concatenated per-query results (first-seen order). -/
theorem c8_search_merger_dedup (store : String → ℕ → List Doc)
    (translate : String → String) (query : String) (limit : ℕ) :
    ((search_recall_cases store translate query limit).cases.map SearchCase.url).Nodup ∧
    (∀ c ∈ (search_recall_cases store translate query limit).cases, c.url ≠ "") ∧
    (search_recall_cases store translate query limit).cases.length ≤ limit ∧
    List.Sublist ((search_recall_cases store translate query limit).cases.map SearchCase.url)
      ((((searchQueriesOf translate query).mapIdx
          (fun i q => store q (if i == 0 then limit * 3 else limit * 2))).flatten).map Doc.url) := by
  obtain ⟨csub, cnd, cout⟩ := collectDocs_spec
    ((searchQueriesOf translate query).mapIdx
      (fun i q => store q (if i == 0 then limit * 3 else limit * 2))) []
  have hcase : (search_recall_cases store translate query limit).cases =
      ((collectDocs [] ((searchQueriesOf translate query).mapIdx
        (fun i q => store q (if i == 0 then limit * 3 else limit * 2)))).take limit).map docToCase := rfl
  have hmapurl : ∀ l : List Doc, (l.map docToCase).map SearchCase.url = l.map Doc.url := by
    intro l
    rw [List.map_map]
    rfl
  have htake : List.Sublist ((collectDocs [] ((searchQueriesOf translate query).mapIdx
      (fun i q => store q (if i == 0 then limit * 3 else limit * 2)))).take limit)
      (collectDocs [] ((searchQueriesOf translate query).mapIdx
        (fun i q => store q (if i == 0 then limit * 3 else limit * 2)))) :=
    List.take_sublist limit _
  refine ⟨?_, ?_, ?_, ?_⟩
  · rw [hcase, hmapurl]
    exact List.Nodup.sublist (htake.map Doc.url) cnd
  · intro c hc
    rw [hcase] at hc
    obtain ⟨d2, hd2, hd2c⟩ := List.mem_map.mp hc
    have : d2 ∈ collectDocs [] _ := htake.mem hd2
    rw [← hd2c]
    exact (cout d2 this).2
  · rw [hcase]
    simp [List.length_take]
  · rw [hcase, hmapurl]
    exact List.Sublist.trans (htake.map Doc.url) (csub.map Doc.url)

/-! ## Orchestrator cache (`FunctionCallRecallSystem.process_question`,
lines 1355-1515)

The language-model call, the tool executions and the answer generation sit
inside one `try` block; `LLMOutcome` abstracts its three observable
outcomes: an exception anywhere in the block, a tool-calling response
(with the executed tool records — a tool's own failure is an error object
inside its record, not an exception), or a direct answer. The
question-answer cache is an association list, keyed by `get_cache_key`. -/

structure ToolRecord where
  function : String
  args : String
  result : String
deriving DecidableEq, Repr

structure QAResult where
  answer : String
  function_calls : List ToolRecord
  processing_type : String
deriving DecidableEq, Repr

inductive LLMOutcome where
  | exception (msg : String)
  | toolCalls (results : List ToolRecord)
  | direct (content : String)
deriving DecidableEq, Repr

def cacheLookup (cache : List (String × QAResult)) (key : String) : Option QAResult :=
  match cache with
  | [] => none
  | (k, v) :: rest => if k == key then some v else cacheLookup rest key

/-- Model of `process_question`: cached answers are returned verbatim; a successful
resolution (function calling or direct answer) is stored under the
question's cache key before returning; the exception path returns the
error payload without touching the cache. -/
def process_question (cache : List (String × QAResult)) (question : String)
    (outcome : LLMOutcome) (answerGen : String → List ToolRecord → String) :
    QAResult × List (String × QAResult) :=
  let cache_key := get_cache_key question
  match cacheLookup cache cache_key with
  | some r => (r, cache)
  | none =>
    match outcome with
    | .exception e =>
      ({ answer := "처리 중 오류가 발생했습니다: " ++ e, function_calls := [],
         processing_type := "error" }, cache)
    | .toolCalls results =>
      let r : QAResult :=
        { answer := answerGen question results,
          function_calls := results, processing_type := "function_calling" }
      (r, (cache_key, r) :: cache)
    | .direct content =>
      let r : QAResult :=
        { answer := content, function_calls := [],
          processing_type := "direct_answer" }
      (r, (cache_key, r) :: cache)

/-- C9: on an exception the returned payload has processing_type "error"
and the cache is unchanged — the question still misses the cache
afterwards, so repeating it re-executes the pipeline; and whatever the
outcome, the cache only ever holds "function_calling" or "direct_answer"
results. -/
theorem c9_error_result_not_cached
    (cache : List (String × QAResult)) (question : String) (e : String)
    (answerGen : String → List ToolRecord → String)
    (hmiss : cacheLookup cache (get_cache_key question) = none) :
    (process_question cache question (LLMOutcome.exception e) answerGen).1.processing_type
      = "error" ∧
    (process_question cache question (LLMOutcome.exception e) answerGen).2 = cache ∧
    cacheLookup (process_question cache question (LLMOutcome.exception e) answerGen).2
      (get_cache_key question) = none ∧
    (∀ outcome : LLMOutcome,
      (∀ kv ∈ cache, kv.2.processing_type = "function_calling" ∨
        kv.2.processing_type = "direct_answer") →
      ∀ kv ∈ (process_question cache question outcome answerGen).2,
        kv.2.processing_type = "function_calling" ∨
        kv.2.processing_type = "direct_answer") := by
  refine ⟨by simp [process_question, hmiss], by simp [process_question, hmiss],
    by simp [process_question, hmiss], ?_⟩
  intro outcome hInv kv hkv
  cases outcome with
  | exception e2 =>
    simp only [process_question, hmiss] at hkv
    exact hInv kv hkv
  | toolCalls results =>
    simp only [process_question, hmiss] at hkv
    rcases List.mem_cons.mp hkv with h | h
    · rw [h]
      exact Or.inl rfl
    · exact hInv kv h
  | direct content =>
    simp only [process_question, hmiss] at hkv
    rcases List.mem_cons.mp hkv with h | h
    · rw [h]
      exact Or.inr rfl
    · exact hInv kv h

theorem c9_error_result_not_cached_witness :
    cacheLookup [] (get_cache_key "작년 리콜 건수는?") = none ∧
    (process_question [] "작년 리콜 건수는?" (LLMOutcome.exception "boom")
      (fun _ _ => "")).1.processing_type = "error" ∧
    (process_question [] "작년 리콜 건수는?" (LLMOutcome.exception "boom")
      (fun _ _ => "")).2 = [] :=
  ⟨rfl,
   (c9_error_result_not_cached [] "작년 리콜 건수는?" "boom" (fun _ _ => "") rfl).1,
   (c9_error_result_not_cached [] "작년 리콜 건수는?" "boom" (fun _ _ => "") rfl).2.1⟩
